import Mathlib

/-!
Shallow embedding of `storage_logic.py`: hour-by-hour dispatch of building
energy demand between a battery and the grid under time-of-use pricing.

The pandas dataframe `results` becomes a record of columns `ℕ → ℚ`; an
assignment `results['col'][i] = v` becomes a `Function.update` of that
column at index `i`.  The parameter dictionary `system_param` becomes a
record; the efficiency entries, which in the source are callables taking
the string `'charging'` or `'discharging'`, become functions out of a
two-element `Direction` type.  Real numbers are modelled by `ℚ` so that
every definition is executable.
-/

namespace StorageLogic

/-- The argument of the efficiency callables: `'charging'` or `'discharging'`. -/
inductive Direction where
  | charging
  | discharging
deriving DecidableEq

/-- The `system_param` dictionary of `storage_logic.py`:
keys `'Storage Size'`, `'Bat Depleted'`, `'Max Charge Rate'`,
`'Battery Efficiency'`, `'Inverter Efficiency'`. -/
structure SystemParam where
  storageSize : ℚ
  batDepleted : ℚ
  maxChargeRate : ℚ
  batteryEfficiency : Direction → ℚ
  inverterEfficiency : Direction → ℚ

/-- The input dataframe `demand_costs`: a series of `n` hourly records with
columns `USAGE` (demand) and `period` (pricing-period label). -/
structure DemandCosts where
  n : ℕ
  usage : ℕ → ℚ
  period : ℕ → String

/-- The `results` dataframe: the input columns plus the battery state column
`storage_available` and the seven flow columns initialised by `main`. -/
structure Results where
  usage : ℕ → ℚ
  period : ℕ → String
  storage_available : ℕ → ℚ
  inverter_to_storage : ℕ → ℚ
  storage_to_inverter : ℕ → ℚ
  inverter_to_demand : ℕ → ℚ
  grid_to_inverter : ℕ → ℚ
  grid_to_demand_peak : ℕ → ℚ
  grid_to_demand_offpeak : ℕ → ℚ

/-- `peak_battery_only(results, system_param, i)` — lines 53-63 of
`storage_logic.py`: peak hour served entirely from the battery. -/
def peak_battery_only (results : Results) (system_param : SystemParam) (i : ℕ) : Results :=
  let itd := results.usage i / system_param.inverterEfficiency Direction.discharging
  let sti := itd / system_param.batteryEfficiency Direction.discharging
  { results with
      inverter_to_demand := Function.update results.inverter_to_demand i itd
      storage_to_inverter := Function.update results.storage_to_inverter i sti
      storage_available :=
        Function.update results.storage_available (i + 1) (results.storage_available i - sti)
      inverter_to_storage := Function.update results.inverter_to_storage i 0
      grid_to_inverter := Function.update results.grid_to_inverter i 0
      grid_to_demand_peak := Function.update results.grid_to_demand_peak i 0
      grid_to_demand_offpeak := Function.update results.grid_to_demand_offpeak i 0 }

/-- `peak_battery_and_grid(results, system_param, i)` — lines 65-75: peak hour,
battery drawn to the depleted level and the grid makes up the difference. -/
def peak_battery_and_grid (results : Results) (system_param : SystemParam) (i : ℕ) : Results :=
  let sti := (results.storage_available i - system_param.batDepleted) *
    system_param.batteryEfficiency Direction.discharging
  let itd := sti * system_param.inverterEfficiency Direction.discharging
  { results with
      storage_to_inverter := Function.update results.storage_to_inverter i sti
      inverter_to_demand := Function.update results.inverter_to_demand i itd
      storage_available := Function.update results.storage_available (i + 1) system_param.batDepleted
      grid_to_demand_peak := Function.update results.grid_to_demand_peak i (results.usage i - itd)
      inverter_to_storage := Function.update results.inverter_to_storage i 0
      grid_to_inverter := Function.update results.grid_to_inverter i 0
      grid_to_demand_offpeak := Function.update results.grid_to_demand_offpeak i 0 }

/-- `offpeak_store_to_cap(results, system_param, i)` — lines 77-87: off-peak hour,
battery nearly full, topped off exactly to capacity. -/
def offpeak_store_to_cap (results : Results) (system_param : SystemParam) (i : ℕ) : Results :=
  let its := (system_param.storageSize - results.storage_available i) /
    system_param.batteryEfficiency Direction.charging
  let gti := its / system_param.inverterEfficiency Direction.charging
  { results with
      grid_to_demand_offpeak := Function.update results.grid_to_demand_offpeak i (results.usage i)
      inverter_to_storage := Function.update results.inverter_to_storage i its
      grid_to_inverter := Function.update results.grid_to_inverter i gti
      storage_available := Function.update results.storage_available (i + 1) system_param.storageSize
      storage_to_inverter := Function.update results.storage_to_inverter i 0
      inverter_to_demand := Function.update results.inverter_to_demand i 0
      grid_to_demand_peak := Function.update results.grid_to_demand_peak i 0 }

/-- `offpeak_store_partial(results, system_param, i)` — lines 89-99: off-peak hour,
battery charged at the maximum rate. -/
def offpeak_store_partial (results : Results) (system_param : SystemParam) (i : ℕ) : Results :=
  let its := system_param.maxChargeRate / system_param.batteryEfficiency Direction.charging
  let gti := its / system_param.inverterEfficiency Direction.charging
  { results with
      grid_to_demand_offpeak := Function.update results.grid_to_demand_offpeak i (results.usage i)
      storage_available :=
        Function.update results.storage_available (i + 1)
          (results.storage_available i + system_param.maxChargeRate)
      inverter_to_storage := Function.update results.inverter_to_storage i its
      grid_to_inverter := Function.update results.grid_to_inverter i gti
      storage_to_inverter := Function.update results.storage_to_inverter i 0
      inverter_to_demand := Function.update results.inverter_to_demand i 0
      grid_to_demand_peak := Function.update results.grid_to_demand_peak i 0 }

/-- `offpeak_battery_full(results, system_param, i)` — lines 101-111: off-peak hour,
battery already full, no charging. -/
def offpeak_battery_full (results : Results) (system_param : SystemParam) (i : ℕ) : Results :=
  { results with
      grid_to_demand_offpeak := Function.update results.grid_to_demand_offpeak i (results.usage i)
      grid_to_inverter := Function.update results.grid_to_inverter i 0
      inverter_to_storage := Function.update results.inverter_to_storage i 0
      storage_available := Function.update results.storage_available (i + 1) system_param.storageSize
      storage_to_inverter := Function.update results.storage_to_inverter i 0
      inverter_to_demand := Function.update results.inverter_to_demand i 0
      grid_to_demand_peak := Function.update results.grid_to_demand_peak i 0 }

/-- The initialisation block of `main` — lines 116-126: all flow columns zero,
`storage_available[0] = system_param['Storage Size']`. -/
def initResults (demand_costs : DemandCosts) (system_param : SystemParam) : Results :=
  { usage := demand_costs.usage
    period := demand_costs.period
    storage_available := Function.update (fun _ => 0) 0 system_param.storageSize
    inverter_to_storage := fun _ => 0
    storage_to_inverter := fun _ => 0
    inverter_to_demand := fun _ => 0
    grid_to_inverter := fun _ => 0
    grid_to_demand_peak := fun _ => 0
    grid_to_demand_offpeak := fun _ => 0 }

/-- The branch body of the loop in `main` — lines 135-161: dispatch of hour `i`
between the five mode handlers. -/
def dispatchHour (system_param : SystemParam) (results : Results) (i : ℕ) : Results :=
  if results.period i = "peak" ∨ results.period i = "int" then
    if (results.storage_available i - system_param.batDepleted) *
        system_param.batteryEfficiency Direction.discharging *
        system_param.inverterEfficiency Direction.discharging ≥ results.usage i then
      peak_battery_only results system_param i
    else
      peak_battery_and_grid results system_param i
  else
    if results.storage_available i < system_param.storageSize then
      if system_param.storageSize - results.storage_available i ≤
          system_param.inverterEfficiency Direction.charging * system_param.maxChargeRate then
        offpeak_store_to_cap results system_param i
      else
        offpeak_store_partial results system_param i
    else
      offpeak_battery_full results system_param i

/-- `mainLoop system_param results k` dispatches hours `0, 1, ..., k - 1` in order:
the state after the loop of `main` has executed its first `k` non-break iterations. -/
def mainLoop (system_param : SystemParam) (results : Results) : ℕ → Results
  | 0 => results
  | k + 1 => dispatchHour system_param (mainLoop system_param results k) k

/-- `main(demand_costs, system_param)` — lines 113-164: initialise the state and
flow columns, then loop over `i in range(0, n)`, breaking at `i = n - 1`, so that
exactly hours `0 .. n - 2` are dispatched. -/
def main (demand_costs : DemandCosts) (system_param : SystemParam) : Results :=
  mainLoop system_param (initResults demand_costs system_param) (demand_costs.n - 1)

/-! ### Concrete inputs used to instantiate the theorems -/

/-- A three-hour series: a peak hour of demand 3, then off-peak hours. -/
def overshootDC : DemandCosts :=
  { n := 3
    usage := fun i => if i = 0 then 3 else 0
    period := fun i => if i = 0 then "peak" else "offpeak" }

/-- Parameters that satisfy every validity condition of the spec (capacity 10,
floor 0, charge rate 4, every efficiency in `(0, 1]`), with inverter charging
efficiency `1/2`. -/
def overshootSP : SystemParam :=
  { storageSize := 10
    batDepleted := 0
    maxChargeRate := 4
    batteryEfficiency := fun _ => 1
    inverterEfficiency := fun d => match d with
      | Direction.charging => 1/2
      | Direction.discharging => 1 }

/-- A two-hour series: a peak hour of demand 1, then an off-peak hour. -/
def peak1DC : DemandCosts :=
  { n := 2
    usage := fun _ => 1
    period := fun i => if i = 0 then "peak" else "offpeak" }

/-- Valid parameters with inverter discharging efficiency `1/2`, so that the
two directions of dividing by an efficiency give different numbers. -/
def peak1SP : SystemParam :=
  { storageSize := 10
    batDepleted := 2
    maxChargeRate := 0
    batteryEfficiency := fun _ => 1
    inverterEfficiency := fun d => match d with
      | Direction.charging => 1
      | Direction.discharging => 1/2 }

/-- The spec's own boundary scenario: a peak hour of demand 12 against a
battery holding 10 with floor 2, all efficiencies 1: mode 2 fires. -/
def peak2DC : DemandCosts :=
  { n := 2
    usage := fun _ => 12
    period := fun i => if i = 0 then "peak" else "offpeak" }

/-- The spec's boundary-scenario parameters: capacity 10, floor 2, rate 3,
all efficiencies 1. -/
def peak2SP : SystemParam :=
  { storageSize := 10
    batDepleted := 2
    maxChargeRate := 3
    batteryEfficiency := fun _ => 1
    inverterEfficiency := fun _ => 1 }

/-- A one-hour series whose single (and hence final) hour is off-peak with
demand 5. -/
def finalDC : DemandCosts :=
  { n := 1
    usage := fun _ => 5
    period := fun _ => "offpeak" }

/-- An invalid input series: hour 0 has negative demand and an unrecognized
period label. -/
def invalidDC : DemandCosts :=
  { n := 2
    usage := fun i => if i = 0 then -5 else 1
    period := fun _ => "???" }

/-- Invalid parameters: `storage_size = 0` violates `storage_size > 0`. -/
def invalidSP : SystemParam :=
  { storageSize := 0
    batDepleted := 0
    maxChargeRate := 3
    batteryEfficiency := fun _ => 1
    inverterEfficiency := fun _ => 1 }

/-! ### Basic lemmas about the dispatch step -/

theorem dispatchHour_usage (sp : SystemParam) (r : Results) (i : ℕ) :
    (dispatchHour sp r i).usage = r.usage := by
  unfold dispatchHour peak_battery_only peak_battery_and_grid offpeak_store_to_cap
    offpeak_store_partial offpeak_battery_full
  split_ifs <;> rfl

theorem dispatchHour_period (sp : SystemParam) (r : Results) (i : ℕ) :
    (dispatchHour sp r i).period = r.period := by
  unfold dispatchHour peak_battery_only peak_battery_and_grid offpeak_store_to_cap
    offpeak_store_partial offpeak_battery_full
  split_ifs <;> rfl

theorem dispatchHour_flows_untouched (sp : SystemParam) (r : Results) (i j : ℕ) (hj : j ≠ i) :
    (dispatchHour sp r i).inverter_to_storage j = r.inverter_to_storage j ∧
    (dispatchHour sp r i).storage_to_inverter j = r.storage_to_inverter j ∧
    (dispatchHour sp r i).inverter_to_demand j = r.inverter_to_demand j ∧
    (dispatchHour sp r i).grid_to_inverter j = r.grid_to_inverter j ∧
    (dispatchHour sp r i).grid_to_demand_peak j = r.grid_to_demand_peak j ∧
    (dispatchHour sp r i).grid_to_demand_offpeak j = r.grid_to_demand_offpeak j := by
  unfold dispatchHour peak_battery_only peak_battery_and_grid offpeak_store_to_cap
    offpeak_store_partial offpeak_battery_full
  split_ifs <;> simp [Function.update_noteq hj]

theorem dispatchHour_sa_untouched (sp : SystemParam) (r : Results) (i j : ℕ) (hj : j ≠ i + 1) :
    (dispatchHour sp r i).storage_available j = r.storage_available j := by
  unfold dispatchHour peak_battery_only peak_battery_and_grid offpeak_store_to_cap
    offpeak_store_partial offpeak_battery_full
  split_ifs <;> simp [Function.update_noteq hj]

/-! ### Branch selection lemmas: which mode handler fires -/

theorem dispatchHour_eq_mode1 (sp : SystemParam) (r : Results) (i : ℕ)
    (hp : r.period i = "peak" ∨ r.period i = "int")
    (hc : (r.storage_available i - sp.batDepleted) *
      sp.batteryEfficiency Direction.discharging *
      sp.inverterEfficiency Direction.discharging ≥ r.usage i) :
    dispatchHour sp r i = peak_battery_only r sp i := by
  unfold dispatchHour
  rw [if_pos hp, if_pos hc]

theorem dispatchHour_eq_mode2 (sp : SystemParam) (r : Results) (i : ℕ)
    (hp : r.period i = "peak" ∨ r.period i = "int")
    (hc : ¬ ((r.storage_available i - sp.batDepleted) *
      sp.batteryEfficiency Direction.discharging *
      sp.inverterEfficiency Direction.discharging ≥ r.usage i)) :
    dispatchHour sp r i = peak_battery_and_grid r sp i := by
  unfold dispatchHour
  rw [if_pos hp, if_neg hc]

theorem dispatchHour_eq_mode3 (sp : SystemParam) (r : Results) (i : ℕ)
    (hp : ¬ (r.period i = "peak" ∨ r.period i = "int"))
    (hf : r.storage_available i < sp.storageSize)
    (hc : sp.storageSize - r.storage_available i ≤
      sp.inverterEfficiency Direction.charging * sp.maxChargeRate) :
    dispatchHour sp r i = offpeak_store_to_cap r sp i := by
  unfold dispatchHour
  rw [if_neg hp, if_pos hf, if_pos hc]

theorem dispatchHour_eq_mode4 (sp : SystemParam) (r : Results) (i : ℕ)
    (hp : ¬ (r.period i = "peak" ∨ r.period i = "int"))
    (hf : r.storage_available i < sp.storageSize)
    (hc : ¬ (sp.storageSize - r.storage_available i ≤
      sp.inverterEfficiency Direction.charging * sp.maxChargeRate)) :
    dispatchHour sp r i = offpeak_store_partial r sp i := by
  unfold dispatchHour
  rw [if_neg hp, if_pos hf, if_neg hc]

theorem dispatchHour_eq_mode5 (sp : SystemParam) (r : Results) (i : ℕ)
    (hp : ¬ (r.period i = "peak" ∨ r.period i = "int"))
    (hf : ¬ (r.storage_available i < sp.storageSize)) :
    dispatchHour sp r i = offpeak_battery_full r sp i := by
  unfold dispatchHour
  rw [if_neg hp, if_neg hf]

/-! ### Field values written by each mode handler -/

theorem peak_battery_only_fields (r : Results) (sp : SystemParam) (i : ℕ) :
    (peak_battery_only r sp i).inverter_to_demand i =
      r.usage i / sp.inverterEfficiency Direction.discharging ∧
    (peak_battery_only r sp i).storage_to_inverter i =
      r.usage i / sp.inverterEfficiency Direction.discharging /
        sp.batteryEfficiency Direction.discharging ∧
    (peak_battery_only r sp i).storage_available (i + 1) =
      r.storage_available i - r.usage i / sp.inverterEfficiency Direction.discharging /
        sp.batteryEfficiency Direction.discharging ∧
    (peak_battery_only r sp i).inverter_to_storage i = 0 ∧
    (peak_battery_only r sp i).grid_to_inverter i = 0 ∧
    (peak_battery_only r sp i).grid_to_demand_peak i = 0 ∧
    (peak_battery_only r sp i).grid_to_demand_offpeak i = 0 := by
  simp [peak_battery_only]

theorem peak_battery_and_grid_fields (r : Results) (sp : SystemParam) (i : ℕ) :
    (peak_battery_and_grid r sp i).storage_to_inverter i =
      (r.storage_available i - sp.batDepleted) * sp.batteryEfficiency Direction.discharging ∧
    (peak_battery_and_grid r sp i).inverter_to_demand i =
      (r.storage_available i - sp.batDepleted) * sp.batteryEfficiency Direction.discharging *
        sp.inverterEfficiency Direction.discharging ∧
    (peak_battery_and_grid r sp i).storage_available (i + 1) = sp.batDepleted ∧
    (peak_battery_and_grid r sp i).grid_to_demand_peak i =
      r.usage i - (r.storage_available i - sp.batDepleted) *
        sp.batteryEfficiency Direction.discharging *
        sp.inverterEfficiency Direction.discharging ∧
    (peak_battery_and_grid r sp i).inverter_to_storage i = 0 ∧
    (peak_battery_and_grid r sp i).grid_to_inverter i = 0 ∧
    (peak_battery_and_grid r sp i).grid_to_demand_offpeak i = 0 := by
  simp [peak_battery_and_grid]

theorem offpeak_store_to_cap_fields (r : Results) (sp : SystemParam) (i : ℕ) :
    (offpeak_store_to_cap r sp i).grid_to_demand_offpeak i = r.usage i ∧
    (offpeak_store_to_cap r sp i).inverter_to_storage i =
      (sp.storageSize - r.storage_available i) / sp.batteryEfficiency Direction.charging ∧
    (offpeak_store_to_cap r sp i).grid_to_inverter i =
      (sp.storageSize - r.storage_available i) / sp.batteryEfficiency Direction.charging /
        sp.inverterEfficiency Direction.charging ∧
    (offpeak_store_to_cap r sp i).storage_available (i + 1) = sp.storageSize ∧
    (offpeak_store_to_cap r sp i).storage_to_inverter i = 0 ∧
    (offpeak_store_to_cap r sp i).inverter_to_demand i = 0 ∧
    (offpeak_store_to_cap r sp i).grid_to_demand_peak i = 0 := by
  simp [offpeak_store_to_cap]

theorem offpeak_store_partial_fields (r : Results) (sp : SystemParam) (i : ℕ) :
    ( offpeak_store_partial r sp i).grid_to_demand_offpeak i = r.usage i ∧
    ( offpeak_store_partial r sp i).storage_available (i + 1) =
      r.storage_available i + sp.maxChargeRate ∧
    ( offpeak_store_partial r sp i).inverter_to_storage i =
      sp.maxChargeRate / sp.batteryEfficiency Direction.charging ∧
    ( offpeak_store_partial r sp i).grid_to_inverter i =
      sp.maxChargeRate / sp.batteryEfficiency Direction.charging /
        sp.inverterEfficiency Direction.charging ∧
    ( offpeak_store_partial r sp i).storage_to_inverter i = 0 ∧
    ( offpeak_store_partial r sp i).inverter_to_demand i = 0 ∧
    ( offpeak_store_partial r sp i).grid_to_demand_peak i = 0 := by
  simp [ offpeak_store_partial]

theorem offpeak_battery_full_fields (r : Results) (sp : SystemParam) (i : ℕ) :
    (offpeak_battery_full r sp i).grid_to_demand_offpeak i = r.usage i ∧
    (offpeak_battery_full r sp i).grid_to_inverter i = 0 ∧
    (offpeak_battery_full r sp i).inverter_to_storage i = 0 ∧
    (offpeak_battery_full r sp i).storage_available (i + 1) = sp.storageSize ∧
    (offpeak_battery_full r sp i).storage_to_inverter i = 0 ∧
    (offpeak_battery_full r sp i).inverter_to_demand i = 0 ∧
    (offpeak_battery_full r sp i).grid_to_demand_peak i = 0 := by
  simp [offpeak_battery_full]

/-! ### Stability of the loop: each iteration `i` writes flow columns only at
index `i` and the storage column only at index `i + 1` -/

theorem mainLoop_usage (sp : SystemParam) (r : Results) :
    ∀ k, (mainLoop sp r k).usage = r.usage := by
  intro k
  induction k with
  | zero => rfl
  | succ k ih => simp only [mainLoop, dispatchHour_usage, ih]

theorem mainLoop_period (sp : SystemParam) (r : Results) :
    ∀ k, (mainLoop sp r k).period = r.period := by
  intro k
  induction k with
  | zero => rfl
  | succ k ih => simp only [mainLoop, dispatchHour_period, ih]

theorem mainLoop_sa_early (sp : SystemParam) (r : Results) :
    ∀ k j, j ≤ k →
      (mainLoop sp r k).storage_available j = (mainLoop sp r j).storage_available j := by
  intro k
  induction k with
  | zero =>
    intro j hj
    interval_cases j
    rfl
  | succ k ih =>
    intro j hj
    rcases Nat.lt_succ_iff_lt_or_eq.mp (Nat.lt_succ_of_le hj) with h | h
    · have hne : j ≠ k + 1 := by omega
      calc (mainLoop sp r (k + 1)).storage_available j
          = (mainLoop sp r k).storage_available j :=
            dispatchHour_sa_untouched sp (mainLoop sp r k) k j hne
        _ = (mainLoop sp r j).storage_available j := ih j (by omega)
    · subst h
      rfl

theorem mainLoop_sa_late (sp : SystemParam) (r : Results) :
    ∀ k j, k < j → (mainLoop sp r k).storage_available j = r.storage_available j := by
  intro k
  induction k with
  | zero => intro j _; rfl
  | succ k ih =>
    intro j hj
    have hne : j ≠ k + 1 := by omega
    calc (mainLoop sp r (k + 1)).storage_available j
        = (mainLoop sp r k).storage_available j :=
          dispatchHour_sa_untouched sp (mainLoop sp r k) k j hne
      _ = r.storage_available j := ih j (by omega)

theorem mainLoop_sa_zero (sp : SystemParam) (r : Results) :
    ∀ k, (mainLoop sp r k).storage_available 0 = r.storage_available 0 := by
  intro k
  induction k with
  | zero => rfl
  | succ k ih =>
    calc (mainLoop sp r (k + 1)).storage_available 0
        = (mainLoop sp r k).storage_available 0 :=
          dispatchHour_sa_untouched sp (mainLoop sp r k) k 0 (by omega)
      _ = r.storage_available 0 := ih

theorem mainLoop_flows_early (sp : SystemParam) (r : Results) :
    ∀ k j, j < k →
      (mainLoop sp r k).inverter_to_storage j = (mainLoop sp r (j + 1)).inverter_to_storage j ∧
      (mainLoop sp r k).storage_to_inverter j = (mainLoop sp r (j + 1)).storage_to_inverter j ∧
      (mainLoop sp r k).inverter_to_demand j = (mainLoop sp r (j + 1)).inverter_to_demand j ∧
      (mainLoop sp r k).grid_to_inverter j = (mainLoop sp r (j + 1)).grid_to_inverter j ∧
      (mainLoop sp r k).grid_to_demand_peak j = (mainLoop sp r (j + 1)).grid_to_demand_peak j ∧
      (mainLoop sp r k).grid_to_demand_offpeak j =
        (mainLoop sp r (j + 1)).grid_to_demand_offpeak j := by
  intro k
  induction k with
  | zero => intro j hj; omega
  | succ k ih =>
    intro j hj
    rcases Nat.lt_succ_iff_lt_or_eq.mp hj with h | h
    · have hne : j ≠ k := by omega
      have hu := dispatchHour_flows_untouched sp (mainLoop sp r k) k j hne
      have hih := ih j h
      exact ⟨hu.1.trans hih.1, hu.2.1.trans hih.2.1, hu.2.2.1.trans hih.2.2.1,
        hu.2.2.2.1.trans hih.2.2.2.1, hu.2.2.2.2.1.trans hih.2.2.2.2.1,
        hu.2.2.2.2.2.trans hih.2.2.2.2.2⟩
    · subst h
      exact ⟨rfl, rfl, rfl, rfl, rfl, rfl⟩

theorem mainLoop_flows_late (sp : SystemParam) (r : Results) :
    ∀ k j, k ≤ j →
      (mainLoop sp r k).inverter_to_storage j = r.inverter_to_storage j ∧
      (mainLoop sp r k).storage_to_inverter j = r.storage_to_inverter j ∧
      (mainLoop sp r k).inverter_to_demand j = r.inverter_to_demand j ∧
      (mainLoop sp r k).grid_to_inverter j = r.grid_to_inverter j ∧
      (mainLoop sp r k).grid_to_demand_peak j = r.grid_to_demand_peak j ∧
      (mainLoop sp r k).grid_to_demand_offpeak j = r.grid_to_demand_offpeak j := by
  intro k
  induction k with
  | zero => intro j _; exact ⟨rfl, rfl, rfl, rfl, rfl, rfl⟩
  | succ k ih =>
    intro j hj
    have hne : j ≠ k := by omega
    have hu := dispatchHour_flows_untouched sp (mainLoop sp r k) k j hne
    have hih := ih j (by omega)
    exact ⟨hu.1.trans hih.1, hu.2.1.trans hih.2.1, hu.2.2.1.trans hih.2.2.1,
      hu.2.2.2.1.trans hih.2.2.2.1, hu.2.2.2.2.1.trans hih.2.2.2.2.1,
      hu.2.2.2.2.2.trans hih.2.2.2.2.2⟩

/-! ### Bridging `main` to the dispatch of a single hour -/

theorem mainLoop_succ (sp : SystemParam) (r : Results) (i : ℕ) :
    mainLoop sp r (i + 1) = dispatchHour sp (mainLoop sp r i) i := rfl

theorem main_sa_start (demand_costs : DemandCosts) (system_param : SystemParam) (i : ℕ)
    (hi : i + 1 < demand_costs.n) :
    (main demand_costs system_param).storage_available i =
      (mainLoop system_param (initResults demand_costs system_param) i).storage_available i :=
  mainLoop_sa_early system_param (initResults demand_costs system_param)
    (demand_costs.n - 1) i (by omega)

theorem main_sa_next (demand_costs : DemandCosts) (system_param : SystemParam) (i : ℕ)
    (hi : i + 1 < demand_costs.n) :
    (main demand_costs system_param).storage_available (i + 1) =
      (dispatchHour system_param
        (mainLoop system_param (initResults demand_costs system_param) i)
        i).storage_available (i + 1) := by
  have h := mainLoop_sa_early system_param (initResults demand_costs system_param)
    (demand_costs.n - 1) (i + 1) (by omega)
  rw [main, h, mainLoop_succ]

theorem main_flows (demand_costs : DemandCosts) (system_param : SystemParam) (i : ℕ)
    (hi : i + 1 < demand_costs.n) :
    (main demand_costs system_param).inverter_to_storage i =
      (dispatchHour system_param
        (mainLoop system_param (initResults demand_costs system_param) i)
        i).inverter_to_storage i ∧
    (main demand_costs system_param).storage_to_inverter i =
      (dispatchHour system_param
        (mainLoop system_param (initResults demand_costs system_param) i)
        i).storage_to_inverter i ∧
    (main demand_costs system_param).inverter_to_demand i =
      (dispatchHour system_param
        (mainLoop system_param (initResults demand_costs system_param) i)
        i).inverter_to_demand i ∧
    (main demand_costs system_param).grid_to_inverter i =
      (dispatchHour system_param
        (mainLoop system_param (initResults demand_costs system_param) i)
        i).grid_to_inverter i ∧
    (main demand_costs system_param).grid_to_demand_peak i =
      (dispatchHour system_param
        (mainLoop system_param (initResults demand_costs system_param) i)
        i).grid_to_demand_peak i ∧
    (main demand_costs system_param).grid_to_demand_offpeak i =
      (dispatchHour system_param
        (mainLoop system_param (initResults demand_costs system_param) i)
        i).grid_to_demand_offpeak i := by
  have h := mainLoop_flows_early system_param (initResults demand_costs system_param)
    (demand_costs.n - 1) i (by omega)
  rw [main]
  rw [← mainLoop_succ]
  exact h

theorem mainState_usage (demand_costs : DemandCosts) (system_param : SystemParam) (k : ℕ) :
    (mainLoop system_param (initResults demand_costs system_param) k).usage =
      demand_costs.usage :=
  mainLoop_usage system_param (initResults demand_costs system_param) k

theorem mainState_period (demand_costs : DemandCosts) (system_param : SystemParam) (k : ℕ) :
    (mainLoop system_param (initResults demand_costs system_param) k).period =
      demand_costs.period :=
  mainLoop_period system_param (initResults demand_costs system_param) k

/-- During an hour taken by the off-peak branch, whichever of the three
off-peak handlers fires: demand is bought from the grid, and the discharge and
peak-grid channels are zero. -/
theorem dispatchHour_offpeak_common (sp : SystemParam) (r : Results) (i : ℕ)
    (hp : ¬ (r.period i = "peak" ∨ r.period i = "int")) :
    (dispatchHour sp r i).grid_to_demand_offpeak i = r.usage i ∧
    (dispatchHour sp r i).storage_to_inverter i = 0 ∧
    (dispatchHour sp r i).inverter_to_demand i = 0 ∧
    (dispatchHour sp r i).grid_to_demand_peak i = 0 := by
  unfold dispatchHour
  rw [if_neg hp]
  split_ifs <;>
    simp [offpeak_store_to_cap, offpeak_store_partial, offpeak_battery_full]

/-- During an hour taken by the peak branch, whichever of the two peak handlers
fires: the charging and off-peak-grid channels are zero. -/
theorem dispatchHour_peak_common (sp : SystemParam) (r : Results) (i : ℕ)
    (hp : r.period i = "peak" ∨ r.period i = "int") :
    (dispatchHour sp r i).inverter_to_storage i = 0 ∧
    (dispatchHour sp r i).grid_to_inverter i = 0 ∧
    (dispatchHour sp r i).grid_to_demand_offpeak i = 0 := by
  unfold dispatchHour
  rw [if_pos hp]
  split_ifs <;> simp [peak_battery_only, peak_battery_and_grid]

theorem mainState_usage_at (dc : DemandCosts) (sp : SystemParam) (k i : ℕ) :
    (mainLoop sp (initResults dc sp) k).usage i = dc.usage i :=
  congrFun (mainState_usage dc sp k) i

theorem mainState_period_at (dc : DemandCosts) (sp : SystemParam) (k i : ℕ) :
    (mainLoop sp (initResults dc sp) k).period i = dc.period i :=
  congrFun (mainState_period dc sp k) i

/-! ### Claim C10 -/

/-- Claim C10: `run` never rejects any period value.  Every record whose period
is neither `"peak"` nor `"int"` — the off-peak value or any unrecognized
string — falls through to the off-peak branch and is dispatched by the three
off-peak modes: the hour's demand is bought from the grid off-peak and the
discharge and peak-grid channels are zero.  No period value causes an error
(the embedded `main` is a total function). -/
theorem c10_no_period_rejected (dc : DemandCosts) (sp : SystemParam) (i : ℕ)
    (hi : i + 1 < dc.n) (hp1 : dc.period i ≠ "peak") (hp2 : dc.period i ≠ "int") :
    (main dc sp).grid_to_demand_offpeak i = dc.usage i ∧
    (main dc sp).storage_to_inverter i = 0 ∧
    (main dc sp).inverter_to_demand i = 0 ∧
    (main dc sp).grid_to_demand_peak i = 0 := by
  have hb := main_flows dc sp i hi
  have hper : ¬ ((mainLoop sp (initResults dc sp) i).period i = "peak" ∨
      (mainLoop sp (initResults dc sp) i).period i = "int") := by
    rw [mainState_period]
    push_neg
    exact ⟨hp1, hp2⟩
  have hoc := dispatchHour_offpeak_common sp (mainLoop sp (initResults dc sp) i) i hper
  have hu : (mainLoop sp (initResults dc sp) i).usage i = dc.usage i := by
    rw [mainState_usage]
  refine ⟨?_, ?_, ?_, ?_⟩
  · rw [hb.2.2.2.2.2, hoc.1, hu]
  · rw [hb.2.1, hoc.2.1]
  · rw [hb.2.2.1, hoc.2.2.1]
  · rw [hb.2.2.2.2.1, hoc.2.2.2]

/-- Witness for C10: a record with negative demand and the unrecognized period
`"???"`, under parameters with `storage_size = 0`, is still dispatched through
the off-peak branch. -/
theorem c10_witness :
    (main invalidDC invalidSP).grid_to_demand_offpeak 0 = invalidDC.usage 0 ∧
    (main invalidDC invalidSP).storage_to_inverter 0 = 0 ∧
    (main invalidDC invalidSP).inverter_to_demand 0 = 0 ∧
    (main invalidDC invalidSP).grid_to_demand_peak 0 = 0 :=
  c10_no_period_rejected invalidDC invalidSP 0 (by decide) (by decide) (by decide)

/-! ### Claim C7 -/

/-- Claim C7 (amended): for every off-peak hour other than the final one,
`grid_to_demand_offpeak[i] = demand[i]`; for every off-peak hour including the
final one the discharge channels `storage_to_inverter` and `inverter_to_demand`
are zero; and for every peak/intermediate hour including the final one the
charge channels `inverter_to_storage` and `grid_to_inverter` are zero.  (The
final hour is excluded from the first part because the loop breaks before
dispatching it, leaving its channels at their zero initialisation.) -/
theorem c7_channel_exclusivity (dc : DemandCosts) (sp : SystemParam) (i : ℕ) :
    (i + 1 < dc.n → dc.period i ≠ "peak" → dc.period i ≠ "int" →
      (main dc sp).grid_to_demand_offpeak i = dc.usage i) ∧
    (i < dc.n → dc.period i ≠ "peak" → dc.period i ≠ "int" →
      (main dc sp).storage_to_inverter i = 0 ∧ (main dc sp).inverter_to_demand i = 0) ∧
    (i < dc.n → (dc.period i = "peak" ∨ dc.period i = "int") →
      (main dc sp).inverter_to_storage i = 0 ∧ (main dc sp).grid_to_inverter i = 0) := by
  refine ⟨?_, ?_, ?_⟩
  · intro hi hp1 hp2
    have hb := main_flows dc sp i hi
    have hper : ¬ ((mainLoop sp (initResults dc sp) i).period i = "peak" ∨
        (mainLoop sp (initResults dc sp) i).period i = "int") := by
      rw [mainState_period]
      push_neg
      exact ⟨hp1, hp2⟩
    have hoc := dispatchHour_offpeak_common sp (mainLoop sp (initResults dc sp) i) i hper
    have hu : (mainLoop sp (initResults dc sp) i).usage i = dc.usage i := by
      rw [mainState_usage]
    rw [hb.2.2.2.2.2, hoc.1, hu]
  · intro hi hp1 hp2
    by_cases h : i + 1 < dc.n
    · have hb := main_flows dc sp i h
      have hper : ¬ ((mainLoop sp (initResults dc sp) i).period i = "peak" ∨
          (mainLoop sp (initResults dc sp) i).period i = "int") := by
        rw [mainState_period]
        push_neg
        exact ⟨hp1, hp2⟩
      have hoc := dispatchHour_offpeak_common sp (mainLoop sp (initResults dc sp) i) i hper
      exact ⟨hb.2.1.trans hoc.2.1, hb.2.2.1.trans hoc.2.2.1⟩
    · have hl := mainLoop_flows_late sp (initResults dc sp) (dc.n - 1) i (by omega)
      exact ⟨hl.2.1, hl.2.2.1⟩
  · intro hi hp
    by_cases h : i + 1 < dc.n
    · have hb := main_flows dc sp i h
      have hper : (mainLoop sp (initResults dc sp) i).period i = "peak" ∨
          (mainLoop sp (initResults dc sp) i).period i = "int" := by
        rw [mainState_period]
        exact hp
      have hpc := dispatchHour_peak_common sp (mainLoop sp (initResults dc sp) i) i hper
      exact ⟨hb.1.trans hpc.1, hb.2.2.2.1.trans hpc.2.1⟩
    · have hl := mainLoop_flows_late sp (initResults dc sp) (dc.n - 1) i (by omega)
      exact ⟨hl.1, hl.2.2.2.1⟩

/-- Counterexample for C7 as stated: in a one-hour series whose single hour is
off-peak with demand 5, the loop breaks before dispatching it, so
`grid_to_demand_offpeak[0]` is 0, not `demand[0]`. -/
theorem c7_counterexample :
    finalDC.period 0 ≠ "peak" ∧ finalDC.period 0 ≠ "int" ∧
    ¬ ((main finalDC peak2SP).grid_to_demand_offpeak 0 = finalDC.usage 0) := by
  refine ⟨by decide, by decide, ?_⟩
  norm_num +decide [main, mainLoop, initResults, finalDC, peak2SP]

/-- Witness for C7: at hour 0 of the two-hour series `peak1DC` (a peak hour)
the charge channels are zero, and at the off-peak hour 1 (the final hour) the
discharge channels are zero. -/
theorem c7_witness :
    ((main peak1DC peak1SP).inverter_to_storage 0 = 0 ∧
      (main peak1DC peak1SP).grid_to_inverter 0 = 0) ∧
    ((main peak1DC peak1SP).storage_to_inverter 1 = 0 ∧
      (main peak1DC peak1SP).inverter_to_demand 1 = 0) :=
  ⟨(c7_channel_exclusivity peak1DC peak1SP 0).2.2 (by decide) (by decide),
    (c7_channel_exclusivity peak1DC peak1SP 1).2.1 (by decide) (by decide) (by decide)⟩

/-! ### Claim C4 -/

/-- Claim C4 (amended): the final hour of the series is not dispatched at all:
the loop breaks at `i = n - 1` before computing anything for it, so every flow
field of the final hour keeps its zero initialisation (its
`storage_available` entry, written by the previous hour's dispatch, is the only
populated output). -/
theorem c4_final_hour_not_dispatched (dc : DemandCosts) (sp : SystemParam)
    (h : 0 < dc.n) :
    (main dc sp).inverter_to_storage (dc.n - 1) = 0 ∧
    (main dc sp).storage_to_inverter (dc.n - 1) = 0 ∧
    (main dc sp).inverter_to_demand (dc.n - 1) = 0 ∧
    (main dc sp).grid_to_inverter (dc.n - 1) = 0 ∧
    (main dc sp).grid_to_demand_peak (dc.n - 1) = 0 ∧
    (main dc sp).grid_to_demand_offpeak (dc.n - 1) = 0 := by
  have hl := mainLoop_flows_late sp (initResults dc sp) (dc.n - 1) (dc.n - 1) le_rfl
  exact ⟨hl.1, hl.2.1, hl.2.2.1, hl.2.2.2.1, hl.2.2.2.2.1, hl.2.2.2.2.2⟩

/-- Counterexample for C4 as stated: the single final hour of `finalDC` is
off-peak with demand 5; every off-peak mode would set
`grid_to_demand_offpeak = demand`, yet the output is 0 because the hour is
never dispatched. -/
theorem c4_counterexample :
    finalDC.usage 0 = 5 ∧ finalDC.period 0 ≠ "peak" ∧ finalDC.period 0 ≠ "int" ∧
    ¬ ((main finalDC peak2SP).grid_to_demand_offpeak 0 = finalDC.usage 0) := by
  refine ⟨by decide, by decide, by decide, ?_⟩
  norm_num +decide [main, mainLoop, initResults, finalDC, peak2SP]

/-- Witness for C4 (amended): the flow fields of the final hour of `finalDC`
are all zero. -/
theorem c4_witness :
    (main finalDC peak2SP).inverter_to_storage (finalDC.n - 1) = 0 ∧
    (main finalDC peak2SP).storage_to_inverter (finalDC.n - 1) = 0 ∧
    (main finalDC peak2SP).inverter_to_demand (finalDC.n - 1) = 0 ∧
    (main finalDC peak2SP).grid_to_inverter (finalDC.n - 1) = 0 ∧
    (main finalDC peak2SP).grid_to_demand_peak (finalDC.n - 1) = 0 ∧
    (main finalDC peak2SP).grid_to_demand_offpeak (finalDC.n - 1) = 0 :=
  c4_final_hour_not_dispatched finalDC peak2SP (by decide)

/-! ### Claim C3 -/

/-- Claim C3 (amended): `run` performs no validation at all.  No
`InvalidParameterError` or `InvalidRecordError` exists in the code; every
parameter set and every record, valid or not, is accepted, and every hour
before the last is dispatched normally: its `grid_to_demand_offpeak` is either
the hour's demand (off-peak branch) or zero (peak branch). -/
theorem c3_no_validation (dc : DemandCosts) (sp : SystemParam) (i : ℕ)
    (hi : i + 1 < dc.n) :
    (main dc sp).grid_to_demand_offpeak i = dc.usage i ∨
    (main dc sp).grid_to_demand_offpeak i = 0 := by
  have hb := main_flows dc sp i hi
  by_cases hp : dc.period i = "peak" ∨ dc.period i = "int"
  · right
    have hper : (mainLoop sp (initResults dc sp) i).period i = "peak" ∨
        (mainLoop sp (initResults dc sp) i).period i = "int" := by
      rw [mainState_period]
      exact hp
    exact hb.2.2.2.2.2.trans
      (dispatchHour_peak_common sp (mainLoop sp (initResults dc sp) i) i hper).2.2
  · left
    have hper : ¬ ((mainLoop sp (initResults dc sp) i).period i = "peak" ∨
        (mainLoop sp (initResults dc sp) i).period i = "int") := by
      rw [mainState_period]
      exact hp
    have hu : (mainLoop sp (initResults dc sp) i).usage i = dc.usage i := by
      rw [mainState_usage]
    exact hb.2.2.2.2.2.trans
      ((dispatchHour_offpeak_common sp (mainLoop sp (initResults dc sp) i) i hper).1.trans hu)

/-- Counterexample for C3 as stated: with `storage_size = 0` (invalid per the
claim) and a record with negative demand and an unrecognized period (both
invalid per the claim), the run does not fail before processing any hour: hour
0 is dispatched normally and buys its (negative) demand from the grid. -/
theorem c3_counterexample :
    invalidSP.storageSize ≤ 0 ∧ invalidDC.usage 0 < 0 ∧
    invalidDC.period 0 ≠ "peak" ∧ invalidDC.period 0 ≠ "int" ∧
    (main invalidDC invalidSP).grid_to_demand_offpeak 0 = invalidDC.usage 0 := by
  refine ⟨by norm_num [invalidSP], by norm_num [invalidDC], by decide, by decide, ?_⟩
  norm_num +decide [main, mainLoop, dispatchHour, offpeak_battery_full, initResults,
    invalidDC, invalidSP, Function.update]

/-- Witness for C3 (amended): even with invalid parameters and an invalid
record, hour 0 is dispatched. -/
theorem c3_witness :
    (main invalidDC invalidSP).grid_to_demand_offpeak 0 = invalidDC.usage 0 ∨
    (main invalidDC invalidSP).grid_to_demand_offpeak 0 = 0 :=
  c3_no_validation invalidDC invalidSP 0 (by decide)

/-! ### Claim C2 -/

/-- Claim C2 (amended): for every peak/intermediate hour in which mode 1
(battery-only) fires, the engine sets
`inverter_to_demand[i] = demand[i] / inverter_efficiency(discharging)`,
`storage_to_inverter[i] = inverter_to_demand[i] / battery_efficiency(discharging)`,
and `grid_to_demand_peak[i] = 0`.  (The code divides the demand by the
inverter efficiency before storing it in `inverter_to_demand`, and then by the
battery — not inverter — efficiency to obtain `storage_to_inverter`.) -/
theorem c2_mode1_flows (dc : DemandCosts) (sp : SystemParam) (i : ℕ)
    (hi : i + 1 < dc.n)
    (hp : dc.period i = "peak" ∨ dc.period i = "int")
    (hc : ((main dc sp).storage_available i - sp.batDepleted) *
      sp.batteryEfficiency Direction.discharging *
      sp.inverterEfficiency Direction.discharging ≥ dc.usage i) :
    (main dc sp).inverter_to_demand i =
      dc.usage i / sp.inverterEfficiency Direction.discharging ∧
    (main dc sp).storage_to_inverter i =
      (main dc sp).inverter_to_demand i / sp.batteryEfficiency Direction.discharging ∧
    (main dc sp).grid_to_demand_peak i = 0 := by
  have hb := main_flows dc sp i hi
  rw [main_sa_start dc sp i hi] at hc
  have hper : (mainLoop sp (initResults dc sp) i).period i = "peak" ∨
      (mainLoop sp (initResults dc sp) i).period i = "int" := by
    rw [mainState_period_at]
    exact hp
  have hcond : ((mainLoop sp (initResults dc sp) i).storage_available i - sp.batDepleted) *
      sp.batteryEfficiency Direction.discharging *
      sp.inverterEfficiency Direction.discharging ≥
      (mainLoop sp (initResults dc sp) i).usage i := by
    rw [mainState_usage_at]
    exact hc
  have hd := dispatchHour_eq_mode1 sp (mainLoop sp (initResults dc sp) i) i hper hcond
  have hf := peak_battery_only_fields (mainLoop sp (initResults dc sp) i) sp i
  have h1 : (main dc sp).inverter_to_demand i =
      dc.usage i / sp.inverterEfficiency Direction.discharging := by
    rw [hb.2.2.1, hd, hf.1, mainState_usage_at]
  refine ⟨h1, ?_, ?_⟩
  · rw [h1, hb.2.1, hd, hf.2.1, mainState_usage_at]
  · rw [hb.2.2.2.2.1, hd, hf.2.2.2.2.2.1]

/-- Counterexample for C2 as stated: at the peak hour 0 of `peak1DC` mode 1
fires (deliverable `(10 - 2) × 1 × 1/2 = 4 ≥ 1`), yet
`inverter_to_demand[0] = 1 / (1/2) = 2 ≠ 1 = demand[0]`. -/
theorem c2_counterexample :
    (peak1DC.period 0 = "peak" ∨ peak1DC.period 0 = "int") ∧
    ((main peak1DC peak1SP).storage_available 0 - peak1SP.batDepleted) *
      peak1SP.batteryEfficiency Direction.discharging *
      peak1SP.inverterEfficiency Direction.discharging ≥ peak1DC.usage 0 ∧
    ¬ ((main peak1DC peak1SP).inverter_to_demand 0 = peak1DC.usage 0) := by
  refine ⟨by decide, ?_, ?_⟩ <;>
    norm_num +decide [main, mainLoop, dispatchHour, peak_battery_only, initResults,
      peak1DC, peak1SP, Function.update]

/-- Witness for C2 (amended) at hour 0 of `peak1DC`. -/
theorem c2_witness :
    (main peak1DC peak1SP).inverter_to_demand 0 =
      peak1DC.usage 0 / peak1SP.inverterEfficiency Direction.discharging ∧
    (main peak1DC peak1SP).storage_to_inverter 0 =
      (main peak1DC peak1SP).inverter_to_demand 0 /
        peak1SP.batteryEfficiency Direction.discharging ∧
    (main peak1DC peak1SP).grid_to_demand_peak 0 = 0 :=
  c2_mode1_flows peak1DC peak1SP 0 (by decide) (by decide)
    (by norm_num +decide [main, mainLoop, dispatchHour, peak_battery_only, initResults,
      peak1DC, peak1SP, Function.update])

/-! ### Claim C9 -/

/-- Claim C9: for every hour in which mode 1 fires, the battery level carried
to the next hour equals
`storage_available_start − demand[i] / (battery_efficiency(discharging) × inverter_efficiency(discharging))`:
the code's two successive divisions (first by the inverter efficiency, then by
the battery efficiency) produce the same net drawdown as the spec's single
division by the product. -/
theorem c9_mode1_net_drawdown (dc : DemandCosts) (sp : SystemParam) (i : ℕ)
    (hi : i + 1 < dc.n)
    (hp : dc.period i = "peak" ∨ dc.period i = "int")
    (hc : ((main dc sp).storage_available i - sp.batDepleted) *
      sp.batteryEfficiency Direction.discharging *
      sp.inverterEfficiency Direction.discharging ≥ dc.usage i) :
    (main dc sp).storage_available (i + 1) =
      (main dc sp).storage_available i -
        dc.usage i / (sp.batteryEfficiency Direction.discharging *
          sp.inverterEfficiency Direction.discharging) := by
  rw [main_sa_start dc sp i hi] at hc ⊢
  have hper : (mainLoop sp (initResults dc sp) i).period i = "peak" ∨
      (mainLoop sp (initResults dc sp) i).period i = "int" := by
    rw [mainState_period_at]
    exact hp
  have hcond : ((mainLoop sp (initResults dc sp) i).storage_available i - sp.batDepleted) *
      sp.batteryEfficiency Direction.discharging *
      sp.inverterEfficiency Direction.discharging ≥
      (mainLoop sp (initResults dc sp) i).usage i := by
    rw [mainState_usage_at]
    exact hc
  have hd := dispatchHour_eq_mode1 sp (mainLoop sp (initResults dc sp) i) i hper hcond
  have hf := peak_battery_only_fields (mainLoop sp (initResults dc sp) i) sp i
  rw [main_sa_next dc sp i hi, hd, hf.2.2.1, mainState_usage_at, div_div,
    mul_comm (sp.inverterEfficiency Direction.discharging)
      (sp.batteryEfficiency Direction.discharging)]

/-- Witness for C9 at hour 0 of `peak1DC`: the carry is
`10 − 1 / (1 × 1/2) = 8`. -/
theorem c9_witness :
    (main peak1DC peak1SP).storage_available 1 =
      (main peak1DC peak1SP).storage_available 0 -
        peak1DC.usage 0 / (peak1SP.batteryEfficiency Direction.discharging *
          peak1SP.inverterEfficiency Direction.discharging) :=
  c9_mode1_net_drawdown peak1DC peak1SP 0 (by decide) (by decide)
    (by norm_num +decide [main, mainLoop, dispatchHour, peak_battery_only, initResults,
      peak1DC, peak1SP, Function.update])

/-! ### Claim C6 -/

/-- Claim C6: for every peak/intermediate hour in which mode 2
(battery-plus-grid) fires, the battery is drawn down exactly to the depleted
floor, `storage_to_inverter = (storage_available_start − battery_depleted_floor) × battery_efficiency(discharging)`,
`inverter_to_demand = storage_to_inverter × inverter_efficiency(discharging)`,
and `inverter_to_demand + grid_to_demand_peak` reconstructs the demand
exactly. -/
theorem c6_mode2_flows (dc : DemandCosts) (sp : SystemParam) (i : ℕ)
    (hi : i + 1 < dc.n)
    (hp : dc.period i = "peak" ∨ dc.period i = "int")
    (hc : ¬ (((main dc sp).storage_available i - sp.batDepleted) *
      sp.batteryEfficiency Direction.discharging *
      sp.inverterEfficiency Direction.discharging ≥ dc.usage i)) :
    (main dc sp).storage_to_inverter i =
      ((main dc sp).storage_available i - sp.batDepleted) *
        sp.batteryEfficiency Direction.discharging ∧
    (main dc sp).inverter_to_demand i =
      (main dc sp).storage_to_inverter i *
        sp.inverterEfficiency Direction.discharging ∧
    (main dc sp).storage_available (i + 1) = sp.batDepleted ∧
    (main dc sp).inverter_to_demand i + (main dc sp).grid_to_demand_peak i =
      dc.usage i := by
  have hb := main_flows dc sp i hi
  rw [main_sa_start dc sp i hi] at hc ⊢
  have hper : (mainLoop sp (initResults dc sp) i).period i = "peak" ∨
      (mainLoop sp (initResults dc sp) i).period i = "int" := by
    rw [mainState_period_at]
    exact hp
  have hcond : ¬ (((mainLoop sp (initResults dc sp) i).storage_available i -
      sp.batDepleted) *
      sp.batteryEfficiency Direction.discharging *
      sp.inverterEfficiency Direction.discharging ≥
      (mainLoop sp (initResults dc sp) i).usage i) := by
    rw [mainState_usage_at]
    exact hc
  have hd := dispatchHour_eq_mode2 sp (mainLoop sp (initResults dc sp) i) i hper hcond
  have hf := peak_battery_and_grid_fields (mainLoop sp (initResults dc sp) i) sp i
  have h1 : (main dc sp).storage_to_inverter i =
      ((mainLoop sp (initResults dc sp) i).storage_available i - sp.batDepleted) *
        sp.batteryEfficiency Direction.discharging := by
    rw [hb.2.1, hd, hf.1]
  have h2 : (main dc sp).inverter_to_demand i =
      (main dc sp).storage_to_inverter i * sp.inverterEfficiency Direction.discharging := by
    rw [hb.2.2.1, hd, hf.2.1, h1]
  refine ⟨h1, h2, ?_, ?_⟩
  · rw [main_sa_next dc sp i hi, hd, hf.2.2.1]
  · rw [h2, h1, hb.2.2.2.2.1, hd, hf.2.2.2.1, mainState_usage_at]
    ring

/-- Witness for C6: the spec's boundary scenario `peak2DC`/`peak2SP`
(demand 12 against deliverable 8): the battery is drawn to the floor and the
grid covers the remaining 4. -/
theorem c6_witness :
    (main peak2DC peak2SP).storage_to_inverter 0 =
      ((main peak2DC peak2SP).storage_available 0 - peak2SP.batDepleted) *
        peak2SP.batteryEfficiency Direction.discharging ∧
    (main peak2DC peak2SP).inverter_to_demand 0 =
      (main peak2DC peak2SP).storage_to_inverter 0 *
        peak2SP.inverterEfficiency Direction.discharging ∧
    (main peak2DC peak2SP).storage_available 1 = peak2SP.batDepleted ∧
    (main peak2DC peak2SP).inverter_to_demand 0 +
      (main peak2DC peak2SP).grid_to_demand_peak 0 = peak2DC.usage 0 :=
  c6_mode2_flows peak2DC peak2SP 0 (by decide) (by decide)
    (by norm_num +decide [main, mainLoop, dispatchHour, peak_battery_and_grid, initResults,
      peak2DC, peak2SP, Function.update])

/-! ### Claim C5 -/

/-- Claim C5: for every peak/intermediate hour (so mode 1 or mode 2 fires),
given valid parameters (discharging efficiencies in `(0, 1]`,
`0 ≤ battery_depleted_floor < storage_size`), the charge handed to the next
hour satisfies `storage_available_next[i] ≥ battery_depleted_floor`:
discharging never takes the battery below the depleted floor. -/
theorem c5_floor_preserved (dc : DemandCosts) (sp : SystemParam) (i : ℕ)
    (hi : i + 1 < dc.n)
    (hp : dc.period i = "peak" ∨ dc.period i = "int")
    (hbe0 : 0 < sp.batteryEfficiency Direction.discharging)
    (hbe1 : sp.batteryEfficiency Direction.discharging ≤ 1)
    (hie0 : 0 < sp.inverterEfficiency Direction.discharging)
    (hie1 : sp.inverterEfficiency Direction.discharging ≤ 1)
    (hfl0 : 0 ≤ sp.batDepleted)
    (hfl1 : sp.batDepleted < sp.storageSize) :
    sp.batDepleted ≤ (main dc sp).storage_available (i + 1) := by
  have hper : (mainLoop sp (initResults dc sp) i).period i = "peak" ∨
      (mainLoop sp (initResults dc sp) i).period i = "int" := by
    rw [mainState_period_at]
    exact hp
  rw [main_sa_next dc sp i hi]
  by_cases hc : ((mainLoop sp (initResults dc sp) i).storage_available i -
      sp.batDepleted) *
      sp.batteryEfficiency Direction.discharging *
      sp.inverterEfficiency Direction.discharging ≥
      (mainLoop sp (initResults dc sp) i).usage i
  · rw [dispatchHour_eq_mode1 sp (mainLoop sp (initResults dc sp) i) i hper hc,
      (peak_battery_only_fields (mainLoop sp (initResults dc sp) i) sp i).2.2.1, div_div]
    have hpos : 0 < sp.inverterEfficiency Direction.discharging *
        sp.batteryEfficiency Direction.discharging := mul_pos hie0 hbe0
    have h1 : (mainLoop sp (initResults dc sp) i).usage i /
        (sp.inverterEfficiency Direction.discharging *
          sp.batteryEfficiency Direction.discharging) ≤
        (mainLoop sp (initResults dc sp) i).storage_available i - sp.batDepleted := by
      rw [div_le_iff hpos]
      calc (mainLoop sp (initResults dc sp) i).usage i
          ≤ ((mainLoop sp (initResults dc sp) i).storage_available i - sp.batDepleted) *
            sp.batteryEfficiency Direction.discharging *
            sp.inverterEfficiency Direction.discharging := hc
        _ = ((mainLoop sp (initResults dc sp) i).storage_available i - sp.batDepleted) *
            (sp.inverterEfficiency Direction.discharging *
              sp.batteryEfficiency Direction.discharging) := by ring
    linarith
  · rw [dispatchHour_eq_mode2 sp (mainLoop sp (initResults dc sp) i) i hper hc,
      (peak_battery_and_grid_fields (mainLoop sp (initResults dc sp) i) sp i).2.2.1]

/-- Witness for C5 at hour 0 of `peak1DC`: the carry 8 stays above the
floor 2. -/
theorem c5_witness :
    peak1SP.batDepleted ≤ (main peak1DC peak1SP).storage_available 1 :=
  c5_floor_preserved peak1DC peak1SP 0 (by decide) (by decide)
    (by norm_num [peak1SP]) (by norm_num [peak1SP])
    (by norm_num [peak1SP]) (by norm_num [peak1SP])
    (by norm_num [peak1SP]) (by norm_num [peak1SP])

/-! ### Claim C1 -/

/-- Invariant behind C1: under valid parameters with inverter charging
efficiency exactly 1, every entry of the storage column stays within
`[0, storage_size]` throughout the loop. -/
theorem mainLoop_sa_bounds (dc : DemandCosts) (sp : SystemParam)
    (hfl0 : 0 ≤ sp.batDepleted) (hfl1 : sp.batDepleted < sp.storageSize)
    (hsize : 0 < sp.storageSize) (hrate : 0 ≤ sp.maxChargeRate)
    (hbe0 : 0 < sp.batteryEfficiency Direction.discharging)
    (hie0 : 0 < sp.inverterEfficiency Direction.discharging)
    (hiec : sp.inverterEfficiency Direction.charging = 1)
    (hd : ∀ i, 0 ≤ dc.usage i) :
    ∀ k j, 0 ≤ (mainLoop sp (initResults dc sp) k).storage_available j ∧
      (mainLoop sp (initResults dc sp) k).storage_available j ≤ sp.storageSize := by
  intro k
  induction k with
  | zero =>
    intro j
    by_cases hj : j = 0
    · subst hj
      have h0 : (initResults dc sp).storage_available 0 = sp.storageSize := by
        simp [initResults]
      rw [mainLoop]
      rw [h0]
      exact ⟨hsize.le, le_rfl⟩
    · have h0 : (initResults dc sp).storage_available j = 0 := by
        simp [initResults, Function.update_noteq hj]
      rw [mainLoop]
      rw [h0]
      exact ⟨le_rfl, hsize.le⟩
  | succ k ih =>
    intro j
    by_cases hj : j = k + 1
    · subst hj
      obtain ⟨hl, hr⟩ := ih k
      have husage : (mainLoop sp (initResults dc sp) k).usage k = dc.usage k :=
        mainState_usage_at dc sp k k
      rw [mainLoop_succ]
      by_cases hp : (mainLoop sp (initResults dc sp) k).period k = "peak" ∨
          (mainLoop sp (initResults dc sp) k).period k = "int"
      · by_cases hc : ((mainLoop sp (initResults dc sp) k).storage_available k -
            sp.batDepleted) *
            sp.batteryEfficiency Direction.discharging *
            sp.inverterEfficiency Direction.discharging ≥
            (mainLoop sp (initResults dc sp) k).usage k
        · rw [dispatchHour_eq_mode1 sp (mainLoop sp (initResults dc sp) k) k hp hc,
            (peak_battery_only_fields (mainLoop sp (initResults dc sp) k) sp k).2.2.1,
            div_div]
          have hpos : 0 < sp.inverterEfficiency Direction.discharging *
              sp.batteryEfficiency Direction.discharging := mul_pos hie0 hbe0
          have h1 : (mainLoop sp (initResults dc sp) k).usage k /
              (sp.inverterEfficiency Direction.discharging *
                sp.batteryEfficiency Direction.discharging) ≤
              (mainLoop sp (initResults dc sp) k).storage_available k - sp.batDepleted := by
            rw [div_le_iff₀ hpos]
            calc (mainLoop sp (initResults dc sp) k).usage k
                ≤ ((mainLoop sp (initResults dc sp) k).storage_available k -
                  sp.batDepleted) *
                  sp.batteryEfficiency Direction.discharging *
                  sp.inverterEfficiency Direction.discharging := hc
              _ = ((mainLoop sp (initResults dc sp) k).storage_available k -
                  sp.batDepleted) *
                  (sp.inverterEfficiency Direction.discharging *
                    sp.batteryEfficiency Direction.discharging) := by ring
          have h0 : 0 ≤ (mainLoop sp (initResults dc sp) k).usage k /
              (sp.inverterEfficiency Direction.discharging *
                sp.batteryEfficiency Direction.discharging) := by
            apply div_nonneg _ hpos.le
            rw [husage]
            exact hd k
          constructor
          · linarith
          · linarith
        · rw [dispatchHour_eq_mode2 sp (mainLoop sp (initResults dc sp) k) k hp hc,
            (peak_battery_and_grid_fields (mainLoop sp (initResults dc sp) k) sp k).2.2.1]
          exact ⟨hfl0, hfl1.le⟩
      · by_cases hfull : (mainLoop sp (initResults dc sp) k).storage_available k <
            sp.storageSize
        · by_cases hcc : sp.storageSize -
              (mainLoop sp (initResults dc sp) k).storage_available k ≤
              sp.inverterEfficiency Direction.charging * sp.maxChargeRate
          · rw [dispatchHour_eq_mode3 sp (mainLoop sp (initResults dc sp) k) k hp hfull hcc,
              (offpeak_store_to_cap_fields (mainLoop sp (initResults dc sp) k) sp k).2.2.2.1]
            exact ⟨hsize.le, le_rfl⟩
          · rw [dispatchHour_eq_mode4 sp (mainLoop sp (initResults dc sp) k) k hp hfull hcc,
              ( offpeak_store_partial_fields (mainLoop sp (initResults dc sp) k) sp k).2.1]
            push_neg at hcc
            rw [hiec, one_mul] at hcc
            exact ⟨by linarith, by linarith⟩
        · rw [dispatchHour_eq_mode5 sp (mainLoop sp (initResults dc sp) k) k hp hfull,
            (offpeak_battery_full_fields (mainLoop sp (initResults dc sp) k) sp k).2.2.2.1]
          exact ⟨hsize.le, le_rfl⟩
    · rw [mainLoop_succ, dispatchHour_sa_untouched sp (mainLoop sp (initResults dc sp) k) k j hj]
      exact ih j

/-- Claim C1 (amended): for every valid input series and parameter set in which
additionally `inverter_efficiency(charging) = 1`, every entry of the storage
column — in particular every `storage_available_next[i]` — stays within
`[0, storage_size]`.  The extra assumption is forced: mode 4's guard compares
the headroom against `inverter_efficiency(charging) × max_charge_rate` but then
adds the full `max_charge_rate`, so with a charging inverter efficiency below 1
the capacity can be exceeded (see the counterexample). -/
theorem c1_capacity_bounds (dc : DemandCosts) (sp : SystemParam)
    (hfl0 : 0 ≤ sp.batDepleted) (hfl1 : sp.batDepleted < sp.storageSize)
    (hsize : 0 < sp.storageSize) (hrate : 0 ≤ sp.maxChargeRate)
    (hbe0 : 0 < sp.batteryEfficiency Direction.discharging)
    (hie0 : 0 < sp.inverterEfficiency Direction.discharging)
    (hiec : sp.inverterEfficiency Direction.charging = 1)
    (hd : ∀ i, 0 ≤ dc.usage i) (i : ℕ) :
    0 ≤ (main dc sp).storage_available i ∧
      (main dc sp).storage_available i ≤ sp.storageSize :=
  mainLoop_sa_bounds dc sp hfl0 hfl1 hsize hrate hbe0 hie0 hiec hd (dc.n - 1) i

/-- Counterexample for C1 as stated: `overshootSP` satisfies every validity
condition of the spec (capacity 10 > 0, floor 0, rate 4 ≥ 0, every efficiency
in `(0, 1]`) and `overshootDC` has non-negative demand, yet after a peak hour
draws the battery to 7, the off-peak partial-charge mode fires (headroom
`3 > 1/2 × 4`) and pushes the battery to `7 + 4 = 11 > 10 = storage_size`. -/
theorem c1_counterexample :
    0 < overshootSP.storageSize ∧
    0 ≤ overshootSP.batDepleted ∧ overshootSP.batDepleted < overshootSP.storageSize ∧
    0 ≤ overshootSP.maxChargeRate ∧
    0 < overshootSP.batteryEfficiency Direction.charging ∧
    overshootSP.batteryEfficiency Direction.charging ≤ 1 ∧
    0 < overshootSP.batteryEfficiency Direction.discharging ∧
    overshootSP.batteryEfficiency Direction.discharging ≤ 1 ∧
    0 < overshootSP.inverterEfficiency Direction.charging ∧
    overshootSP.inverterEfficiency Direction.charging ≤ 1 ∧
    0 < overshootSP.inverterEfficiency Direction.discharging ∧
    overshootSP.inverterEfficiency Direction.discharging ≤ 1 ∧
    0 ≤ overshootDC.usage 0 ∧ 0 ≤ overshootDC.usage 1 ∧ 0 ≤ overshootDC.usage 2 ∧
    ¬ ((main overshootDC overshootSP).storage_available 2 ≤ overshootSP.storageSize) := by
  refine ⟨?_, ?_, ?_, ?_, ?_, ?_, ?_, ?_, ?_, ?_, ?_, ?_, ?_, ?_, ?_, ?_⟩ <;>
    norm_num +decide [main, mainLoop, dispatchHour, peak_battery_only,
      offpeak_store_partial, initResults, overshootDC, overshootSP, Function.update]

/-- Witness for C1 (amended): with the spec's boundary parameters (all
efficiencies 1) the storage column stays within `[0, 10]`; shown here at
hour 1. -/
theorem c1_witness :
    0 ≤ (main peak2DC peak2SP).storage_available 1 ∧
      (main peak2DC peak2SP).storage_available 1 ≤ peak2SP.storageSize :=
  c1_capacity_bounds peak2DC peak2SP (by norm_num [peak2SP]) (by norm_num [peak2SP])
    (by norm_num [peak2SP]) (by norm_num [peak2SP]) (by norm_num [peak2SP])
    (by norm_num [peak2SP]) (by norm_num [peak2SP])
    (by intro i; norm_num [peak2DC]) 1

/-! ### Claim C8 -/

/-- The dispatch of hour `i` depends on the period column only through the
predicate "is the period `peak` or `int`": replacing the period column by any
column classifying hour `i` the same way commutes with the dispatch. -/
theorem dispatchHour_period_irrel (sp : SystemParam) (r : Results) (i : ℕ) (p' : ℕ → String)
    (hper : (p' i = "peak" ∨ p' i = "int") ↔ (r.period i = "peak" ∨ r.period i = "int")) :
    dispatchHour sp { r with period := p' } i = { dispatchHour sp r i with period := p' } := by
  by_cases hp : r.period i = "peak" ∨ r.period i = "int"
  · have hp' : ({ r with period := p' } : Results).period i = "peak" ∨
        ({ r with period := p' } : Results).period i = "int" := hper.mpr hp
    by_cases hc : (r.storage_available i - sp.batDepleted) *
        sp.batteryEfficiency Direction.discharging *
        sp.inverterEfficiency Direction.discharging ≥ r.usage i
    · rw [dispatchHour_eq_mode1 sp { r with period := p' } i hp' hc,
        dispatchHour_eq_mode1 sp r i hp hc]
      rfl
    · rw [dispatchHour_eq_mode2 sp { r with period := p' } i hp' hc,
        dispatchHour_eq_mode2 sp r i hp hc]
      rfl
  · have hp' : ¬ (({ r with period := p' } : Results).period i = "peak" ∨
        ({ r with period := p' } : Results).period i = "int") := fun h => hp (hper.mp h)
    by_cases hfull : r.storage_available i < sp.storageSize
    · by_cases hcc : sp.storageSize - r.storage_available i ≤
          sp.inverterEfficiency Direction.charging * sp.maxChargeRate
      · rw [dispatchHour_eq_mode3 sp { r with period := p' } i hp' hfull hcc,
          dispatchHour_eq_mode3 sp r i hp hfull hcc]
        rfl
      · rw [dispatchHour_eq_mode4 sp { r with period := p' } i hp' hfull hcc,
          dispatchHour_eq_mode4 sp r i hp hfull hcc]
        rfl
    · rw [dispatchHour_eq_mode5 sp { r with period := p' } i hp' hfull,
        dispatchHour_eq_mode5 sp r i hp hfull]
      rfl

/-- Replacing the period column by one that classifies every hour the same way
commutes with the whole loop. -/
theorem mainLoop_period_irrel (sp : SystemParam) (r : Results) (p' : ℕ → String)
    (hper : ∀ m, (p' m = "peak" ∨ p' m = "int") ↔ (r.period m = "peak" ∨ r.period m = "int")) :
    ∀ k, mainLoop sp { r with period := p' } k = { mainLoop sp r k with period := p' } := by
  intro k
  induction k with
  | zero => rfl
  | succ k ih =>
    have hper' : (p' k = "peak" ∨ p' k = "int") ↔
        ((mainLoop sp r k).period k = "peak" ∨ (mainLoop sp r k).period k = "int") := by
      rw [congrFun (mainLoop_period sp r k) k]
      exact hper k
    calc mainLoop sp { r with period := p' } (k + 1)
        = dispatchHour sp (mainLoop sp { r with period := p' } k) k := rfl
      _ = dispatchHour sp { mainLoop sp r k with period := p' } k := by rw [ih]
      _ = { dispatchHour sp (mainLoop sp r k) k with period := p' } :=
          dispatchHour_period_irrel sp (mainLoop sp r k) k p' hper'

/-- Claim C8: an hour labelled with the intermediate value `"int"` is
dispatched identically to a peak hour: replacing one record's period `"peak"`
by `"int"` leaves every computed output column — the storage column and all
seven flow columns — of every hour unchanged. -/
theorem c8_int_equals_peak (dc : DemandCosts) (sp : SystemParam) (j : ℕ)
    (hj : dc.period j = "peak") :
    (main { dc with period := Function.update dc.period j "int" } sp).storage_available =
      (main dc sp).storage_available ∧
    (main { dc with period := Function.update dc.period j "int" } sp).inverter_to_storage =
      (main dc sp).inverter_to_storage ∧
    (main { dc with period := Function.update dc.period j "int" } sp).storage_to_inverter =
      (main dc sp).storage_to_inverter ∧
    (main { dc with period := Function.update dc.period j "int" } sp).inverter_to_demand =
      (main dc sp).inverter_to_demand ∧
    (main { dc with period := Function.update dc.period j "int" } sp).grid_to_inverter =
      (main dc sp).grid_to_inverter ∧
    (main { dc with period := Function.update dc.period j "int" } sp).grid_to_demand_peak =
      (main dc sp).grid_to_demand_peak ∧
    (main { dc with period := Function.update dc.period j "int" } sp).grid_to_demand_offpeak =
      (main dc sp).grid_to_demand_offpeak := by
  have hper : ∀ m, (Function.update dc.period j "int" m = "peak" ∨
      Function.update dc.period j "int" m = "int") ↔
      (dc.period m = "peak" ∨ dc.period m = "int") := by
    intro m
    by_cases hm : m = j
    · subst hm
      rw [Function.update_same, hj]
      simp
    · rw [Function.update_noteq hm]
  have key : main { dc with period := Function.update dc.period j "int" } sp =
      { main dc sp with period := Function.update dc.period j "int" } := by
    have hinit : initResults { dc with period := Function.update dc.period j "int" } sp =
        { initResults dc sp with period := Function.update dc.period j "int" } := rfl
    show mainLoop sp (initResults { dc with period := Function.update dc.period j "int" } sp)
        (dc.n - 1) = { main dc sp with period := Function.update dc.period j "int" }
    rw [hinit]
    exact mainLoop_period_irrel sp (initResults dc sp)
      (Function.update dc.period j "int") (fun m => hper m) (dc.n - 1)
  rw [key]
  exact ⟨rfl, rfl, rfl, rfl, rfl, rfl, rfl⟩

/-- Witness for C8: relabelling the peak hour 0 of `peak1DC` as `"int"` leaves
every computed output column unchanged. -/
theorem c8_witness :
    (main { peak1DC with period := Function.update peak1DC.period 0 "int" }
        peak1SP).storage_available = (main peak1DC peak1SP).storage_available ∧
    (main { peak1DC with period := Function.update peak1DC.period 0 "int" }
        peak1SP).inverter_to_storage = (main peak1DC peak1SP).inverter_to_storage ∧
    (main { peak1DC with period := Function.update peak1DC.period 0 "int" }
        peak1SP).storage_to_inverter = (main peak1DC peak1SP).storage_to_inverter ∧
    (main { peak1DC with period := Function.update peak1DC.period 0 "int" }
        peak1SP).inverter_to_demand = (main peak1DC peak1SP).inverter_to_demand ∧
    (main { peak1DC with period := Function.update peak1DC.period 0 "int" }
        peak1SP).grid_to_inverter = (main peak1DC peak1SP).grid_to_inverter ∧
    (main { peak1DC with period := Function.update peak1DC.period 0 "int" }
        peak1SP).grid_to_demand_peak = (main peak1DC peak1SP).grid_to_demand_peak ∧
    (main { peak1DC with period := Function.update peak1DC.period 0 "int" }
        peak1SP).grid_to_demand_offpeak = (main peak1DC peak1SP).grid_to_demand_offpeak :=
  c8_int_equals_peak peak1DC peak1SP 0 (by decide)

end StorageLogic
